import Mathlib

/-!
Verification of the payment order settlement engine
(`api/handler/payment_handler.go`).

The Go handler is shallowly embedded: the database is an explicit record of
lists (orders, users, products, power logs), every `gorm` call becomes a pure
lookup or update on that record, and each handler method becomes a Lean
function from the pre-state to the post-state paired with its result.
External effects the handler merely consumes — the clock, Go's calendar-day
arithmetic `time.AddDate`, provider HTTP calls, form parsing, the snowflake
id generator — enter as explicit parameters.  Fallible database writes whose
errors the Go code checks are modelled with failure-injection flags; writes
whose errors the Go code ignores take the same flags but, as in the source,
the flag only suppresses the write without changing the returned result.
-/

namespace Payment

/-- Order status enum: `types.OrderNotPaid`, `types.OrderScanned`,
`types.OrderPaidSuccess`. -/
inductive OrderStatus where
  | notPaid
  | scanned
  | paidSuccess
deriving DecidableEq, Repr

/-- Rank of a status in the intended forward progression. -/
def statusRank : OrderStatus → Nat
  | .notPaid => 0
  | .scanned => 1
  | .paidSuccess => 2

/-- `types.OrderRemark`: the benefit snapshot serialized into the order at
creation time.  Monetary values are modelled as exact integers (the source
routes them through `shopspring/decimal`). -/
structure OrderRemark where
  days : Int
  power : Int
  name : String
  price : Int
  discount : Int
deriving DecidableEq, Repr

/-- `model.Order`.  The `remark` column holds a JSON-encoded
`OrderRemark`; `none` models a string `utils.JsonDecode` fails on. -/
structure Order where
  orderNo : String
  userId : Int
  username : String
  productId : Int
  subject : String
  amount : Int
  status : OrderStatus
  payWay : String
  payType : String
  tradeNo : String
  payTime : Int
  remark : Option OrderRemark
deriving DecidableEq, Repr

/-- `model.User` restricted to the fields the payment handler touches. -/
structure User where
  id : Int
  username : String
  power : Int
  expiredTime : Int
  vip : Bool
deriving DecidableEq, Repr

/-- `model.Product` restricted to the fields the payment handler touches. -/
structure Product where
  id : Int
  name : String
  price : Int
  discount : Int
  days : Int
  power : Int
  sales : Int
deriving DecidableEq, Repr

/-- `model.PowerLog` restricted to the fields the claims mention:
`Amount` is the credited delta, `Balance` the post-mutation balance,
`Model` the provider (`order.PayWay`), `Remark` the human-readable reason
(the constant `Type`/`Mark` columns and the timestamp are omitted). -/
structure PowerLog where
  userId : Int
  username : String
  amount : Int
  balance : Int
  model : String
  remark : String
deriving DecidableEq, Repr

/-- The database state the handler reads and writes. -/
structure DB where
  orders : List Order
  users : List User
  products : List Product
  powerLogs : List PowerLog
deriving DecidableEq, Repr

/-- First element of a list satisfying a predicate (the `First` of a
`WHERE` query). -/
def lookupBy {α : Type} (p : α → Bool) : List α → Option α
  | [] => none
  | a :: l => if p a then some a else lookupBy p l

/-- `h.DB.Where("order_no = ?", orderNo).First(&order)`. -/
def findOrder (db : DB) (orderNo : String) : Option Order :=
  lookupBy (fun o => o.orderNo == orderNo) db.orders

/-- `h.DB.First(&user, id)`. -/
def findUser (db : DB) (id : Int) : Option User :=
  lookupBy (fun u => u.id == id) db.users

/-- `h.DB.First(&product, id)`. -/
def findProduct (db : DB) (id : Int) : Option Product :=
  lookupBy (fun p => p.id == id) db.products

/-- `h.DB.Updates(&user)`: persist the (primary-key identified) user row. -/
def updateUser (db : DB) (u : User) : DB :=
  { db with users := db.users.map (fun x => if x.id == u.id then u else x) }

/-- `h.DB.Updates(&order)` / `h.DB.Model(&order).UpdateColumn(...)`:
persist the order row. -/
def updateOrder (db : DB) (o : Order) : DB :=
  { db with orders := db.orders.map (fun x => if x.orderNo == o.orderNo then o else x) }

/-- `h.DB.Model(&model.Product{}).Where("id = ?", pid).UpdateColumn("sales",
gorm.Expr("sales + ?", 1))`. -/
def incSales (db : DB) (productId : Int) : DB :=
  { db with products :=
      db.products.map (fun p => if p.id == productId then { p with sales := p.sales + 1 } else p) }

/-- `h.DB.Create(&model.PowerLog{...})`. -/
def addPowerLog (db : DB) (l : PowerLog) : DB :=
  { db with powerLogs := db.powerLogs ++ [l] }

/-- `h.DB.Create(&order)`. -/
def createOrder (db : DB) (o : Order) : DB :=
  { db with orders := db.orders ++ [o] }

/-- Ambient inputs of the handler: the clock (`time.Now().Unix()`), Go's
calendar-day arithmetic `time.Unix(t, 0).AddDate(0, 0, d).Unix()` as an
abstract function `addDays`, the system configuration
(`h.App.SysConfig.VipMonthPower`, `h.App.SysConfig.OrderPayTimeout`), the
in-memory signing key `h.signKey`, and failure-injection flags for the four
database writes `notify` performs. -/
structure Env where
  now : Int
  addDays : Int → Int → Int
  vipMonthPower : Int
  orderPayTimeout : Int
  signKey : String
  failUserUpdate : Bool
  failOrderUpdate : Bool
  failSalesUpdate : Bool
  failPowerLogInsert : Bool

/-- Lines 438–455 of `notify`: compute the mutated user, the credited power
delta, and the human-readable operation tag from the order remark. -/
def creditBenefit (env : Env) (remark : OrderRemark) (user : User) : User × Int × String :=
  if remark.days > 0 then
    if user.expiredTime ≥ env.now then
      ({ user with expiredTime := env.addDays user.expiredTime remark.days, vip := true },
        0, "VIP充值，VIP 没到期，只延期不增加算力")
    else
      ({ user with expiredTime := env.addDays env.now remark.days,
                   power := user.power + env.vipMonthPower, vip := true },
        env.vipMonthPower, "VIP充值")
  else
    ({ user with power := user.power + remark.power }, remark.power, "点卡充值")

/-- The `Remark` column of the power log written by `notify`
(`fmt.Sprintf` of the operation tag, the order amount and the order no). -/
def logRemark (opt : String) (o : Order) : String :=
  opt ++ "，金额：" ++ toString o.amount ++ "，订单号：" ++ o.orderNo

/-- Lines 417–494 of `notify`: everything executed after `h.lock.Lock()`,
operating on the order snapshot `order` that was fetched before the lock was
taken.  Returns the new database and whether the Go function returns `nil`. -/
def notifyLocked (env : Env) (db : DB) (order : Order) (tradeNo : String) : DB × Bool :=
  if order.status = .paidSuccess then (db, true)
  else
    match findUser db order.userId with
    | none => (db, false)
    | some user =>
      match order.remark with
      | none => (db, false)
      | some remark =>
        let r := creditBenefit env remark user
        let user1 := r.1
        let power := r.2.1
        let opt := r.2.2
        if env.failUserUpdate then (db, false)
        else
          let db1 := updateUser db user1
          let order1 := { order with payTime := env.now, status := .paidSuccess, tradeNo := tradeNo }
          if env.failOrderUpdate then (db1, false)
          else
            let db2 := updateOrder db1 order1
            let db3 := if env.failSalesUpdate then db2 else incSales db2 order.productId
            let db4 :=
              if power > 0 then
                if env.failPowerLogInsert then db3
                else
                  addPowerLog db3
                    { userId := user1.id, username := user1.username, amount := power,
                      balance := user1.power, model := order.payWay,
                      remark := logRemark opt order }
              else db3
            (db4, true)

/-- Lines 405–495: the shared asynchronous-notification settlement routine
`notify(orderNo, tradeNo)`.  The order is fetched, the handler-wide mutex is
taken, and `notifyLocked` runs on the fetched snapshot.  In this sequential
model the mutex is a no-op. -/
def notify (env : Env) (db : DB) (orderNo tradeNo : String) : DB × Bool :=
  match findOrder db orderNo with
  | none => (db, false)
  | some order => notifyLocked env db order tradeNo

/-- `utils.Sha256`, modelled as an injective digest function: distinct
preimages give distinct digests, standing in for collision resistance. -/
def sha256 (s : String) : String :=
  "sha256:" ++ s

/-- Line 78: the string `DoPay` recomputes the signature from:
`fmt.Sprintf("%s-%d-%s", orderNo, t, h.signKey)`. -/
def doPaySignStr (orderNo : String) (t : Int) (signKey : String) : String :=
  orderNo ++ "-" ++ toString t ++ "-" ++ signKey

/-- Line 275: the string `PayQrcode` signs:
`fmt.Sprintf("%s-%s-%d-%s", orderNo, data.PayWay, timestamp, h.signKey)`. -/
def payQrcodeSignStr (orderNo payWay : String) (timestamp : Int) (signKey : String) : String :=
  orderNo ++ "-" ++ payWay ++ "-" ++ toString timestamp ++ "-" ++ signKey

/-- Line 276: the `sign` query parameter `PayQrcode` embeds in the pay URL. -/
def payQrcodeSign (orderNo payWay : String) (timestamp : Int) (signKey : String) : String :=
  sha256 (payQrcodeSignStr orderNo payWay timestamp signKey)

/-- Outcomes of the external provider calls `DoPay` and `Mobile` may make
(`alipayService.PayUrlMobile`, `huPiPayService.Pay`,
`wechatPayService.PayUrlNative` / `PayUrlH5`, `geekPayService.Pay`). -/
structure ProviderEnv where
  alipayPayUrl : Except String String
  hupiPayUrl : Except String String
  wechatPayUrl : Except String String
  geekPayResult : Except String String
deriving Repr

/-- What `DoPay` does with the HTTP response: an error string
(`resp.ERROR`), a 302 redirect, a JSON success payload (`resp.SUCCESS`), or
— when the order's pay way matches no branch — no response at all. -/
inductive DoPayResult where
  | errorMsg (msg : String)
  | redirect (url : String)
  | success (payload : String)
  | noResponse
deriving DecidableEq, Repr

/-- The query parameters of a `DoPay` request. -/
structure DoPayReq where
  orderNo : String
  t : Int
  sign : String
deriving DecidableEq, Repr

/-- Lines 74–165: `DoPay`.  Verifies the signature and its age, rejects an
already-paid order, marks the order scanned, then branches to the selected
provider.  Returns the new database and the HTTP outcome. -/
def doPay (env : Env) (pe : ProviderEnv) (db : DB) (req : DoPayReq) : DB × DoPayResult :=
  let newSign := sha256 (doPaySignStr req.orderNo req.t env.signKey)
  if newSign ≠ req.sign then (db, .errorMsg "订单签名错误！")
  else if env.now - req.t > env.orderPayTimeout then
    (db, .errorMsg "支付二维码已过期，请重新生成！")
  else if req.orderNo = "" then (db, .errorMsg "invalid args")
  else
    match findOrder db req.orderNo with
    | none => (db, .errorMsg "Order not found")
    | some order =>
      if order.status = .paidSuccess then (db, .errorMsg "订单已支付成功，无需重复支付！")
      else
        let db1 := updateOrder db { order with status := .scanned }
        if order.payWay == "alipay" then
          match pe.alipayPayUrl with
          | .error e => (db1, .errorMsg ("error with generate pay url: " ++ e))
          | .ok uri => (db1, .redirect uri)
        else if order.payWay == "hupi" then
          match pe.hupiPayUrl with
          | .error e => (db1, .errorMsg e)
          | .ok uri => (db1, .redirect uri)
        else if order.payWay == "wechat" then
          match pe.wechatPayUrl with
          | .error e => (db1, .errorMsg e)
          | .ok uri => (db1, .redirect uri)
        else if order.payWay == "geek" then
          match pe.geekPayResult with
          | .error e => (db1, .errorMsg e)
          | .ok s => (db1, .success s)
        else (db1, .noResponse)

/-- Outcome of a pay-URL generation request (`PayQrcode` / `Mobile`):
`resp.ERROR`, `resp.NotAuth`, or `resp.SUCCESS` carrying the order number
and the generated URL. -/
inductive PayGenResult where
  | errorMsg (msg : String)
  | notAuth
  | success (orderNo : String) (url : String)
deriving DecidableEq, Repr

/-- JSON body of a `PayQrcode` / `Mobile` request. -/
structure PayGenReq where
  payWay : String
  payType : String
  productId : Int
deriving DecidableEq, Repr

/-- Per-request external inputs of `PayQrcode` and `Mobile`: whether the
JSON body binds, the snowflake order number, the logged-in user, the
configured notify URL of each provider (with its parsed scheme and host),
and failure injection for the embedded-FS open, the URL parse, the QR-code
rendering and the order insert. -/
structure GenEnv where
  bindOk : Bool
  snowflakeOrderNo : Except String String
  loginUser : Option User
  hupiNotifyURL : String
  geekNotifyURL : String
  alipayNotifyURL : String
  wechatNotifyURL : String
  urlScheme : String
  urlHost : String
  parseURLOk : Bool
  fsOpenOk : Bool
  qrcodeOk : Bool
  createOrderFail : Bool
deriving Repr

/-- Lines 216–236 (and 375–394): the order row built by `PayQrcode` and
`Mobile` — remark snapshot of the product, `amount = price - discount`,
status `NotPaid`. -/
def buildOrder (user : User) (product : Product) (orderNo payWay payType : String) : Order :=
  { orderNo := orderNo
    userId := user.id
    username := user.username
    productId := product.id
    subject := product.name
    amount := product.price - product.discount
    status := .notPaid
    payWay := payWay
    payType := payType
    tradeNo := ""
    payTime := 0
    remark := some
      { days := product.days, power := product.power, name := product.name,
        price := product.price, discount := product.discount } }

/-- Lines 168–285: `PayQrcode`.  Finds the product, generates an order
number, resolves the login user and the provider notify URL, creates the
order row, and only then opens the logo, parses the notify URL, signs the
pay URL and renders the QR code — so failures in those later steps leave
the created `NotPaid` order in place. -/
def payQrcode (env : Env) (ge : GenEnv) (db : DB) (req : PayGenReq) : DB × PayGenResult :=
  if ¬ ge.bindOk then (db, .errorMsg "invalid args")
  else
    match findProduct db req.productId with
    | none => (db, .errorMsg "Product not found")
    | some product =>
      match ge.snowflakeOrderNo with
      | .error e => (db, .errorMsg ("error with generate trade no: " ++ e))
      | .ok orderNo =>
        match ge.loginUser with
        | none => (db, .notAuth)
        | some user =>
          let notifyURL? : Option String :=
            if req.payWay == "hupi" then some ge.hupiNotifyURL
            else if req.payWay == "geek" then some ge.geekNotifyURL
            else if req.payWay == "alipay" then some ge.alipayNotifyURL
            else if req.payWay == "wechat" then some ge.wechatNotifyURL
            else none
          match notifyURL? with
          | none => (db, .errorMsg "Invalid pay way")
          | some _ =>
            let order := buildOrder user product orderNo req.payWay req.payType
            if ge.createOrderFail then (db, .errorMsg "error with create order")
            else
              let db1 := createOrder db order
              if ¬ ge.fsOpenOk then (db1, .errorMsg "error with open qrcode log file")
              else if ¬ ge.parseURLOk then (db1, .errorMsg "url parse error")
              else
                let sign := payQrcodeSign orderNo req.payWay env.now env.signKey
                let payUrl := ge.urlScheme ++ "://" ++ ge.urlHost
                  ++ "/api/payment/doPay?order_no=" ++ orderNo
                  ++ "&pay_way=" ++ req.payWay ++ "&pay_type=" ++ req.payType
                  ++ "&t=" ++ toString env.now ++ "&sign=" ++ sign
                if ¬ ge.qrcodeOk then (db1, .errorMsg "qrcode error")
                else (db1, .success orderNo payUrl)

/-- Lines 288–402: `Mobile`.  Finds the product, generates an order number,
resolves the login user, calls the selected provider for a pay URL, and
only after a successful provider call creates the order row — a provider
failure is surfaced before any order exists. -/
def mobile (_env : Env) (pe : ProviderEnv) (ge : GenEnv) (db : DB) (req : PayGenReq) :
    DB × PayGenResult :=
  if ¬ ge.bindOk then (db, .errorMsg "invalid args")
  else
    match findProduct db req.productId with
    | none => (db, .errorMsg "Product not found")
    | some product =>
      match ge.snowflakeOrderNo with
      | .error e => (db, .errorMsg ("error with generate trade no: " ++ e))
      | .ok orderNo =>
        match ge.loginUser with
        | none => (db, .notAuth)
        | some user =>
          let payURL? : Except String String :=
            if req.payWay == "hupi" then
              match pe.hupiPayUrl with
              | .error e => .error ("error with generating Pay Hupi URL: " ++ e)
              | .ok u => .ok u
            else if req.payWay == "geek" then
              .ok ""
            else if req.payWay == "alipay" then
              match pe.alipayPayUrl with
              | .error e => .error ("error with generating Alipay URL: " ++ e)
              | .ok u => .ok u
            else if req.payWay == "wechat" then
              match pe.wechatPayUrl with
              | .error e => .error ("error with generating Wechat URL: " ++ e)
              | .ok u => .ok u
            else .error ("Unsupported pay way: " ++ req.payWay)
          match payURL? with
          | .error e => (db, .errorMsg e)
          | .ok payURL =>
            let order := buildOrder user product orderNo req.payWay req.payType
            if ge.createOrderFail then (db, .errorMsg "error with create order")
            else (createOrder db order, .success orderNo payURL)

/-- The acknowledgment a notification endpoint sends back to the provider:
a plain-text body via `c.String(http.StatusOK, ...)`, no response at all
(the handler returned without writing), or a panic aborting the handler
before any response is written (`WechatPayNotify` dereferences a nil
error, see `wechatPayNotify`). -/
inductive NotifyResp where
  | text (body : String)
  | empty
  | panicked
deriving DecidableEq, Repr

/-- Lines 521–544: `HuPiPayNotify`.  `parseOk` is `c.Request.ParseForm()`,
`checkOk` the out-of-band `huPiPayService.Check(tradeNo)` verification. -/
def huPiPayNotify (env : Env) (db : DB) (parseOk : Bool)
    (tradeOrderId openOrderId : String) (checkOk : Bool) : DB × NotifyResp :=
  if ¬ parseOk then (db, .text "fail")
  else if ¬ checkOk then (db, .text "fail")
  else
    let r := notify env db tradeOrderId openOrderId
    (r.1, if r.2 then .text "success" else .text "fail")

/-- Lines 547–571: `AlipayNotify`.  `verifyOk` is
`alipayService.TradeVerify(c.Request).Success()`. -/
def alipayNotify (env : Env) (db : DB) (parseOk verifyOk : Bool)
    (outTradeNo tradeNo : String) : DB × NotifyResp :=
  if ¬ parseOk then (db, .text "fail")
  else if ¬ verifyOk then (db, .text "fail")
  else
    let r := notify env db outTradeNo tradeNo
    (r.1, if r.2 then .text "success" else .text "fail")

/-- Lines 574–605: `PayJsNotify`.  When `return_code` is not `"1"` the Go
function returns without writing any response body. -/
def payJsNotify (env : Env) (db : DB) (parseOk : Bool)
    (outTradeNo returnCode payjsOrderId : String) : DB × NotifyResp :=
  if ¬ parseOk then (db, .text "fail")
  else if returnCode ≠ "1" then (db, .empty)
  else
    let r := notify env db outTradeNo payjsOrderId
    (r.1, if r.2 then .text "success" else .text "fail")

/-- Lines 608–632: `WechatPayNotify`.  On a failed
`wechatPayService.TradeVerify` the source tries to answer
`c.JSON(http.StatusBadRequest, ...)`, but the body literal evaluates
`err.Error()` (line 620) on `err`, which still holds the result of the
`ParseForm` call already checked to be `nil` at line 610 — a method call
on a nil interface.  The handler therefore panics before any response is
written; the path is modelled as `panicked`. -/
def wechatPayNotify (env : Env) (db : DB) (parseOk verifyOk : Bool)
    (outTradeNo tradeId : String) : DB × NotifyResp :=
  if ¬ parseOk then (db, .text "fail")
  else if ¬ verifyOk then (db, .panicked)
  else
    let r := notify env db outTradeNo tradeId
    (r.1, if r.2 then .text "success" else .text "fail")

/-!
## Interleaving model of concurrent `notify` invocations

Two request-serving goroutines each execute `notify`, broken at its
synchronization-relevant program points: the order fetch (line 407, before
the mutex), acquiring `h.lock` (line 414), and the body `notifyLocked`
executed while holding the mutex.  The in-lock body touches shared state
only under the mutex, so it is taken as one atomic step; collapsing it only
removes schedules, so every run of this model is a genuine interleaving of
the Go routine.
-/

/-- The program counter of one goroutine running `notify`:
before the order fetch, after the fetch (holding the snapshot, waiting for
the mutex), holding the mutex, or returned (with `nil` = `true`). -/
inductive TState where
  | start
  | fetched (snapshot : Option Order)
  | locked (snapshot : Order)
  | finished (ok : Bool)
deriving DecidableEq, Repr

/-- Shared state of a two-goroutine execution: the database, the holder of
the handler-wide mutex `h.lock` (if any), and both program counters. -/
structure CState where
  db : DB
  lockBy : Option Bool
  thA : TState
  thB : TState
deriving Repr

/-- One step of goroutine `me` with parameters `p = (orderNo, tradeNo)`:
returns the new database, the new mutex holder, and the goroutine's new
program counter.  A goroutine waiting on a held mutex makes no progress. -/
def threadStep (env : Env) (p : String × String) (db : DB) (lockBy : Option Bool)
    (me : Bool) : TState → DB × Option Bool × TState
  | .start => (db, lockBy, .fetched (findOrder db p.1))
  | .fetched none => (db, lockBy, .finished false)
  | .fetched (some o) =>
      match lockBy with
      | none => (db, some me, .locked o)
      | some w => (db, some w, .fetched (some o))
  | .locked o =>
      let r := notifyLocked env db o p.2
      (r.1, none, .finished r.2)
  | .finished ok => (db, lockBy, .finished ok)

/-- Scheduler step: `false` steps goroutine A (running `notify pA`),
`true` steps goroutine B (running `notify pB`). -/
def step (env : Env) (pA pB : String × String) (s : CState) (who : Bool) : CState :=
  if who then
    let r := threadStep env pB s.db s.lockBy true s.thB
    { db := r.1, lockBy := r.2.1, thA := s.thA, thB := r.2.2 }
  else
    let r := threadStep env pA s.db s.lockBy false s.thA
    { db := r.1, lockBy := r.2.1, thA := r.2.2, thB := s.thB }

/-- Run a schedule (a list of scheduler choices) from a state. -/
def run (env : Env) (pA pB : String × String) : CState → List Bool → CState
  | s, [] => s
  | s, w :: ws => run env pA pB (step env pA pB s w) ws

/-!
## Concrete fixtures used by witnesses and counterexamples
-/

/-- A concrete stand-in for Go's `time.AddDate(0, 0, d)` used by witnesses
(`notify` treats `addDays` as an opaque parameter). -/
def addDays86400 : Int → Int → Int := fun t d => t + 86400 * d

/-- A concrete environment: clock at 1700000000, 100 bonus power for a new
subscription, 600-second pay timeout, signing key `"K"`, no injected
database failures. -/
def env0 : Env :=
  { now := 1700000000, addDays := addDays86400, vipMonthPower := 100,
    orderPayTimeout := 600, signKey := "K",
    failUserUpdate := false, failOrderUpdate := false,
    failSalesUpdate := false, failPowerLogInsert := false }

/-- A user with no power and no active subscription. -/
def userU : User :=
  { id := 1, username := "u", power := 0, expiredTime := 0, vip := false }

/-- A user whose subscription is still active at `env0.now`. -/
def userVip : User :=
  { id := 2, username := "v", power := 0, expiredTime := 1700001000, vip := true }

/-- Benefit snapshot of a one-time power top-up product (5 power). -/
def remarkTopup : OrderRemark :=
  { days := 0, power := 5, name := "p", price := 10, discount := 0 }

/-- Benefit snapshot of a 30-day subscription product. -/
def remarkVip : OrderRemark :=
  { days := 30, power := 0, name := "vip", price := 30, discount := 0 }

/-- A concrete product row. -/
def prod7 : Product :=
  { id := 7, name := "p", price := 10, discount := 0, days := 0, power := 5, sales := 0 }

/-- An unpaid top-up order for `userU`. -/
def orderA : Order :=
  { orderNo := "A1", userId := 1, username := "u", productId := 7, subject := "p",
    amount := 10, status := .notPaid, payWay := "hupi", payType := "wechat",
    tradeNo := "", payTime := 0, remark := some remarkTopup }

/-- An unpaid 30-day subscription order for the still-subscribed `userVip`. -/
def orderVip : Order :=
  { orderNo := "B1", userId := 2, username := "v", productId := 8, subject := "vip",
    amount := 30, status := .notPaid, payWay := "alipay", payType := "alipay",
    tradeNo := "", payTime := 0, remark := some remarkVip }

/-- Database holding the top-up order and its user. -/
def db0 : DB :=
  { orders := [orderA], users := [userU], products := [prod7], powerLogs := [] }

/-- Database holding the subscription order and its still-subscribed user. -/
def db5 : DB :=
  { orders := [orderVip], users := [userVip],
    products := [{ id := 8, name := "vip", price := 30, discount := 0, days := 30,
                   power := 0, sales := 0 }],
    powerLogs := [] }

/-- An empty database. -/
def dbEmpty : DB :=
  { orders := [], users := [], products := [], powerLogs := [] }

/-!
## Helper lemmas
-/

/-- The element `lookupBy` returns satisfies the predicate. -/
theorem lookupBy_pred {α : Type} (p : α → Bool) {l : List α} {o : α}
    (h : lookupBy p l = some o) : p o = true := by
  induction l with
  | nil => simp [lookupBy] at h
  | cons a l ih =>
    unfold lookupBy at h
    by_cases hp : p a = true
    · rw [if_pos hp] at h
      cases h
      exact hp
    · rw [if_neg hp] at h
      exact ih h

/-- The element `lookupBy` returns is a member of the list. -/
theorem lookupBy_mem {α : Type} (p : α → Bool) {l : List α} {o : α}
    (h : lookupBy p l = some o) : o ∈ l := by
  induction l with
  | nil => simp [lookupBy] at h
  | cons a l ih =>
    unfold lookupBy at h
    by_cases hp : p a = true
    · rw [if_pos hp] at h
      cases h
      simp
    · rw [if_neg hp] at h
      exact List.mem_cons_of_mem _ (ih h)

/-- A found order carries the order number it was looked up by. -/
theorem findOrder_orderNo {db : DB} {n : String} {o : Order}
    (h : findOrder db n = some o) : o.orderNo = n := by
  unfold findOrder at h
  exact eq_of_beq (lookupBy_pred (fun x : Order => x.orderNo == n) h)

/-- A found order is a member of the order list. -/
theorem findOrder_mem {db : DB} {n : String} {o : Order}
    (h : findOrder db n = some o) : o ∈ db.orders := by
  unfold findOrder at h
  exact lookupBy_mem (fun x : Order => x.orderNo == n) h

/-- Updating the order keyed `n` in a list that contains an order keyed `n`
makes the lookup by `n` return the updated order. -/
theorem lookupBy_map_update {l : List Order} {n : String} {o1 : Order}
    (h1 : o1.orderNo = n)
    (h2 : (lookupBy (fun x => x.orderNo == n) l).isSome) :
    lookupBy (fun x => x.orderNo == n)
        (l.map (fun x => if x.orderNo == o1.orderNo then o1 else x)) = some o1 := by
  induction l with
  | nil => simp [lookupBy] at h2
  | cons a l ih =>
    by_cases ha : a.orderNo = n
    · have hb : (a.orderNo == o1.orderNo) = true := beq_iff_eq.mpr (by rw [ha, h1])
      have hb2 : (o1.orderNo == n) = true := beq_iff_eq.mpr h1
      simp only [List.map_cons, hb, if_true]
      unfold lookupBy
      rw [if_pos hb2]
    · have hb : (a.orderNo == o1.orderNo) = false := by
        rw [beq_eq_false_iff_ne]
        rw [h1]; exact ha
      have hb2 : (a.orderNo == n) = false := by
        rw [beq_eq_false_iff_ne]
        exact ha
      have h2t : (lookupBy (fun x => x.orderNo == n) l).isSome := by
        unfold lookupBy at h2
        rw [hb2] at h2
        simpa using h2
      simp only [List.map_cons, hb, Bool.false_eq_true, if_false]
      unfold lookupBy
      rw [hb2]
      simpa using ih h2t

/-- The settled order row `notify` writes. -/
def settledOrder (env : Env) (order : Order) (tradeNo : String) : Order :=
  { order with payTime := env.now, status := .paidSuccess, tradeNo := tradeNo }

/-- The power log row `notify` writes when the credited delta is positive. -/
def settleLog (r : User × Int × String) (order : Order) : PowerLog :=
  { userId := r.1.id, username := r.1.username, amount := r.2.1,
    balance := r.1.power, model := order.payWay, remark := logRemark r.2.2 order }

/-- The database `notify` leaves behind on its success path. -/
def settleDB (env : Env) (db : DB) (order : Order) (tradeNo : String)
    (r : User × Int × String) : DB :=
  let db1 := updateUser db r.1
  let db2 := updateOrder db1 (settledOrder env order tradeNo)
  let db3 := if env.failSalesUpdate then db2 else incSales db2 order.productId
  if r.2.1 > 0 then
    if env.failPowerLogInsert then db3 else addPowerLog db3 (settleLog r order)
  else db3

/-- Characterization of `notify` on its success path: when the order is
found and not yet paid, the user is found, the remark decodes, and neither
the user update nor the order update fails, `notify` returns `nil` and
performs exactly the writes of `settleDB`. -/
theorem notify_success (env : Env) (db : DB) (orderNo tradeNo : String)
    (order : Order) (user : User) (remark : OrderRemark)
    (hord : findOrder db orderNo = some order)
    (hnp : order.status ≠ OrderStatus.paidSuccess)
    (husr : findUser db order.userId = some user)
    (hrem : order.remark = some remark)
    (f1 : env.failUserUpdate = false)
    (f2 : env.failOrderUpdate = false) :
    notify env db orderNo tradeNo =
      (settleDB env db order tradeNo (creditBenefit env remark user), true) := by
  unfold notify notifyLocked settleDB settledOrder settleLog
  rw [hord]
  simp only [husr, hrem, f1, f2, if_neg hnp, Bool.false_eq_true, if_false]

/-- `settleDB` does not touch the user table beyond the user update. -/
theorem settleDB_users (env : Env) (db : DB) (order : Order) (tradeNo : String)
    (r : User × Int × String) :
    (settleDB env db order tradeNo r).users = (updateUser db r.1).users := by
  unfold settleDB updateOrder incSales addPowerLog
  by_cases h3 : env.failSalesUpdate <;>
    by_cases h4 : r.2.1 > 0 <;>
      by_cases h5 : env.failPowerLogInsert <;>
        simp [h3, h4, h5]

/-- The order table of `settleDB` is the original one with the settled
order written over every row keyed by its order number. -/
theorem settleDB_orders (env : Env) (db : DB) (order : Order) (tradeNo : String)
    (r : User × Int × String) :
    (settleDB env db order tradeNo r).orders =
      db.orders.map (fun x =>
        if x.orderNo == (settledOrder env order tradeNo).orderNo then
          settledOrder env order tradeNo
        else x) := by
  unfold settleDB updateUser updateOrder incSales addPowerLog
  by_cases h3 : env.failSalesUpdate <;>
    by_cases h4 : r.2.1 > 0 <;>
      by_cases h5 : env.failPowerLogInsert <;>
        simp [h3, h4, h5]

/-- The power-log table of `settleDB`: one appended row when the credited
delta is positive and the insert is not failed, unchanged otherwise. -/
theorem settleDB_powerLogs (env : Env) (db : DB) (order : Order) (tradeNo : String)
    (r : User × Int × String) :
    (settleDB env db order tradeNo r).powerLogs =
      db.powerLogs ++
        (if r.2.1 > 0 ∧ env.failPowerLogInsert = false then [settleLog r order] else []) := by
  unfold settleDB updateUser updateOrder incSales addPowerLog
  by_cases h3 : env.failSalesUpdate <;>
    by_cases h4 : r.2.1 > 0 <;>
      by_cases h5 : env.failPowerLogInsert <;>
        simp [h3, h4, h5]

/-- The product table of `settleDB`: untouched when the sales update is
failed. -/
theorem settleDB_products_failed (env : Env) (db : DB) (order : Order) (tradeNo : String)
    (r : User × Int × String) (h3 : env.failSalesUpdate = true) :
    (settleDB env db order tradeNo r).products = db.products := by
  unfold settleDB updateUser updateOrder incSales addPowerLog
  by_cases h4 : r.2.1 > 0 <;>
    by_cases h5 : env.failPowerLogInsert <;>
      simp [h3, h4, h5]

/-- Looking the settled order up again after `settleDB` returns the settled
row. -/
theorem findOrder_settleDB (env : Env) (db : DB) (orderNo tradeNo : String)
    (order : Order) (r : User × Int × String)
    (hord : findOrder db orderNo = some order) :
    findOrder (settleDB env db order tradeNo r) orderNo =
      some (settledOrder env order tradeNo) := by
  have hno : (settledOrder env order tradeNo).orderNo = orderNo := by
    have h1 := findOrder_orderNo hord
    simpa [settledOrder] using h1
  unfold findOrder
  rw [settleDB_orders]
  exact lookupBy_map_update hno (by unfold findOrder at hord; rw [hord]; rfl)

/-- The status-monotonicity relation between an order row before and after
an operation: the rank never decreases, and a settled row stays settled. -/
def statusMono (a b : Order) : Prop :=
  statusRank a.status ≤ statusRank b.status ∧
    (a.status = OrderStatus.paidSuccess → b.status = OrderStatus.paidSuccess)

/-- `statusMono` is reflexive, so an untouched order table is monotone. -/
theorem forall2_statusMono_refl (l : List Order) : List.Forall₂ statusMono l l :=
  List.forall₂_same.mpr (fun _ _ => ⟨le_refl _, fun h => h⟩)

/-- Overwriting the rows keyed by a not-yet-paid member's order number with
a row of at least its rank is status-monotone, provided order numbers are
unique in the table. -/
theorem forall2_statusMono_update {l : List Order} {order upd : Order}
    (hU : ∀ x ∈ l, ∀ y ∈ l, x.orderNo = y.orderNo → x = y)
    (hmem : order ∈ l) (hnp : order.status ≠ OrderStatus.paidSuccess)
    (hr : statusRank order.status ≤ statusRank upd.status) :
    List.Forall₂ statusMono l
      (l.map (fun x => if x.orderNo == order.orderNo then upd else x)) := by
  rw [List.forall₂_map_right_iff]
  rw [List.forall₂_same]
  intro x hx
  by_cases hb : (x.orderNo == order.orderNo) = true
  · have hxe : x = order := hU x hx order hmem (eq_of_beq hb)
    rw [if_pos hb]
    constructor
    · rw [hxe]; exact hr
    · intro hc
      exact absurd (hxe ▸ hc) hnp
  · rw [if_neg hb]
    exact ⟨le_refl _, fun h => h⟩

/-- Path characterization of `doPay`'s order-table effect: either the table
is untouched, or a found, not-yet-paid order is overwritten with status
`Scanned`. -/
theorem doPay_orders (env : Env) (pe : ProviderEnv) (db : DB) (req : DoPayReq) :
    (doPay env pe db req).1.orders = db.orders ∨
    ∃ order, findOrder db req.orderNo = some order ∧
      order.status ≠ OrderStatus.paidSuccess ∧
      (doPay env pe db req).1.orders =
        db.orders.map (fun x =>
          if x.orderNo == order.orderNo then { order with status := OrderStatus.scanned }
          else x) := by
  unfold doPay
  by_cases h1 : sha256 (doPaySignStr req.orderNo req.t env.signKey) = req.sign
  · by_cases h2 : env.now - req.t > env.orderPayTimeout
    · left; simp [h1, h2]
    · by_cases h3 : req.orderNo = ""
      · left; simp [h1, h2]; simp [h3]
      · cases hord : findOrder db req.orderNo with
        | none => left; simp [h1, h2, h3, hord]
        | some order =>
          by_cases hp : order.status = OrderStatus.paidSuccess
          · left; simp [h1, h2, h3, hord, hp]
          · right
            refine ⟨order, rfl, hp, ?_⟩
            by_cases w1 : (order.payWay == "alipay") = true
            · cases hA : pe.alipayPayUrl <;>
                simp [h1, h2, h3, hord, hp, w1, hA, updateOrder]
            · by_cases w2 : (order.payWay == "hupi") = true
              · cases hH : pe.hupiPayUrl <;>
                  simp [h1, h2, h3, hord, hp, w1, w2, hH, updateOrder]
              · by_cases w3 : (order.payWay == "wechat") = true
                · cases hW : pe.wechatPayUrl <;>
                    simp [h1, h2, h3, hord, hp, w1, w2, w3, hW, updateOrder]
                · by_cases w4 : (order.payWay == "geek") = true
                  · cases hG : pe.geekPayResult <;>
                      simp [h1, h2, h3, hord, hp, w1, w2, w3, w4, hG, updateOrder]
                  · simp [h1, h2, h3, hord, hp, w1, w2, w3, w4, updateOrder]
  · left; simp [h1]

/-- Path characterization of `notify`'s order-table effect: either the
table is untouched, or a found, not-yet-paid order is overwritten with the
settled row. -/
theorem notify_orders (env : Env) (db : DB) (orderNo tradeNo : String) :
    (notify env db orderNo tradeNo).1.orders = db.orders ∨
    ∃ order, findOrder db orderNo = some order ∧
      order.status ≠ OrderStatus.paidSuccess ∧
      (notify env db orderNo tradeNo).1.orders =
        db.orders.map (fun x =>
          if x.orderNo == order.orderNo then settledOrder env order tradeNo else x) := by
  unfold notify
  cases hord : findOrder db orderNo with
  | none => left; rfl
  | some order =>
    unfold notifyLocked
    by_cases hp : order.status = OrderStatus.paidSuccess
    · left; simp [hp]
    · cases husr : findUser db order.userId with
      | none => left; simp [hp, husr]
      | some user =>
        cases hrem : order.remark with
        | none => left; simp [hp, husr, hrem]
        | some remark =>
          by_cases f1 : env.failUserUpdate = true
          · left; simp [hp, husr, hrem, f1]
          · by_cases f2 : env.failOrderUpdate = true
            · left; simp [hp, husr, hrem, f1, f2, updateUser]
            · right
              refine ⟨order, rfl, hp, ?_⟩
              by_cases f3 : env.failSalesUpdate = true <;>
                by_cases hpw : (creditBenefit env remark user).2.1 > 0 <;>
                  by_cases f4 : env.failPowerLogInsert = true <;>
                    simp [hp, husr, hrem, f1, f2, f3, hpw, f4, updateOrder, updateUser,
                          incSales, addPowerLog, settledOrder]

/-!
## Further fixtures
-/

/-- An already-settled order. -/
def orderPaid : Order :=
  { orderA with orderNo := "P1", status := .paidSuccess, tradeNo := "T0" }

/-- Database holding only the already-settled order. -/
def dbPaid : DB :=
  { orders := [orderPaid], users := [userU], products := [prod7], powerLogs := [] }

/-- Pay-URL generation inputs with every external step succeeding. -/
def geOk : GenEnv :=
  { bindOk := true, snowflakeOrderNo := Except.ok "N1", loginUser := some userU,
    hupiNotifyURL := "https://h/notify", geekNotifyURL := "https://g/notify",
    alipayNotifyURL := "https://a/notify", wechatNotifyURL := "https://w/notify",
    urlScheme := "https", urlHost := "pay.example", parseURLOk := true,
    fsOpenOk := true, qrcodeOk := true, createOrderFail := false }

/-- Pay-URL generation inputs whose QR-code rendering fails. -/
def geQrFail : GenEnv :=
  { geOk with qrcodeOk := false }

/-- Provider outcomes where every provider call fails. -/
def peFail : ProviderEnv :=
  { alipayPayUrl := Except.error "x", hupiPayUrl := Except.error "down",
    wechatPayUrl := Except.error "x", geekPayResult := Except.error "x" }

/-- Database with a product and a user but no orders yet. -/
def dbProd : DB :=
  { orders := [], users := [userU], products := [prod7], powerLogs := [] }

/-!
## Claims
-/

/-- C1 counterexample: the mutual exclusion in `notify` is a single
handler-wide mutex and the idempotency gate inside the lock re-checks only
the order snapshot fetched before the lock; under the schedule in which
both callbacks for order `A1` fetch the order before either settles, both
pass the gate: the user ends with power 10 instead of 5, two `PowerLog`
rows are written, and `sales` is incremented twice — refuting the claim
that racing callbacks for the same order cannot both pass the idempotency
gate and that exactly one credit results. -/
theorem C1_counterexample :
    (let s := run env0 ("A1", "T1") ("A1", "T2")
        { db := db0, lockBy := none, thA := TState.start, thB := TState.start }
        [false, true, false, false, true, true]
     s.thA = TState.finished true ∧
     s.thB = TState.finished true ∧
     (findUser s.db 1).map User.power = some 10 ∧
     s.db.powerLogs.length = 2 ∧
     (findProduct s.db 7).map Product.sales = some 2) ∧
    (notify env0 db0 "A1" "T1").1.powerLogs.length = 1 := by
  decide

/-- C1 (amended): sequentially, settlement is exactly-once — a successful
`notify` settles the order, appends at most one power-log row, and any
later `notify` for the same order returns success without mutating
anything. -/
theorem C1_sequential_once (env env2 : Env) (db : DB) (orderNo tradeNo tradeNo2 : String)
    (order : Order) (user : User) (remark : OrderRemark)
    (hord : findOrder db orderNo = some order)
    (hnp : order.status ≠ OrderStatus.paidSuccess)
    (husr : findUser db order.userId = some user)
    (hrem : order.remark = some remark)
    (f1 : env.failUserUpdate = false)
    (f2 : env.failOrderUpdate = false) :
    (notify env db orderNo tradeNo).2 = true ∧
    notify env2 (notify env db orderNo tradeNo).1 orderNo tradeNo2 =
      ((notify env db orderNo tradeNo).1, true) ∧
    (notify env db orderNo tradeNo).1.powerLogs.length ≤ db.powerLogs.length + 1 := by
  rw [notify_success env db orderNo tradeNo order user remark hord hnp husr hrem f1 f2]
  refine ⟨rfl, ?_, ?_⟩
  · have hfind := findOrder_settleDB env db orderNo tradeNo order
      (creditBenefit env remark user) hord
    unfold notify
    rw [hfind]
    unfold notifyLocked
    simp [settledOrder]
  · rw [settleDB_powerLogs]
    by_cases h : (creditBenefit env remark user).2.1 > 0 ∧ env.failPowerLogInsert = false <;>
      simp [h]

/-- Witness for C1 (amended) at the concrete top-up order `A1`. -/
theorem C1_sequential_once_witness :
    (notify env0 db0 "A1" "T1").2 = true ∧
    notify env0 (notify env0 db0 "A1" "T1").1 "A1" "T2" =
      ((notify env0 db0 "A1" "T1").1, true) ∧
    (notify env0 db0 "A1" "T1").1.powerLogs.length ≤ db0.powerLogs.length + 1 :=
  C1_sequential_once env0 env0 db0 "A1" "T1" "T2" orderA userU remarkTopup
    (by decide) (by decide) (by decide) (by decide) (by decide) (by decide)

/-- C2: for a settlement whose remark has `days > 0`, a still-active
subscription is extended from its old expiry by `days` calendar days with
no power credited, a lapsed one restarts from `now` with the configured
`VipMonthPower` bonus, `vip` is set in both branches; with `days ≤ 0` the
remark's power is added to the balance.  The user row `notify` persists is
exactly the `creditBenefit` mutation. -/
theorem C2_benefit_arithmetic (env : Env) (db : DB) (orderNo tradeNo : String)
    (order : Order) (user : User) (remark : OrderRemark)
    (hord : findOrder db orderNo = some order)
    (hnp : order.status ≠ OrderStatus.paidSuccess)
    (husr : findUser db order.userId = some user)
    (hrem : order.remark = some remark)
    (f1 : env.failUserUpdate = false)
    (f2 : env.failOrderUpdate = false) :
    (notify env db orderNo tradeNo).1.users =
      (updateUser db (creditBenefit env remark user).1).users ∧
    (remark.days > 0 → user.expiredTime ≥ env.now →
      (creditBenefit env remark user).1.expiredTime =
          env.addDays user.expiredTime remark.days ∧
        (creditBenefit env remark user).1.power = user.power ∧
        (creditBenefit env remark user).2.1 = 0 ∧
        (creditBenefit env remark user).1.vip = true) ∧
    (remark.days > 0 → ¬ user.expiredTime ≥ env.now →
      (creditBenefit env remark user).1.expiredTime = env.addDays env.now remark.days ∧
        (creditBenefit env remark user).1.power = user.power + env.vipMonthPower ∧
        (creditBenefit env remark user).1.vip = true) ∧
    (remark.days ≤ 0 →
      (creditBenefit env remark user).1.power = user.power + remark.power) := by
  refine ⟨?_, ?_, ?_, ?_⟩
  · rw [notify_success env db orderNo tradeNo order user remark hord hnp husr hrem f1 f2]
    exact settleDB_users env db order tradeNo (creditBenefit env remark user)
  · intro hd he
    unfold creditBenefit
    rw [if_pos hd, if_pos he]
    exact ⟨rfl, rfl, rfl, rfl⟩
  · intro hd he
    unfold creditBenefit
    rw [if_pos hd, if_neg he]
    exact ⟨rfl, rfl, rfl⟩
  · intro hd
    unfold creditBenefit
    rw [if_neg (by omega : ¬ remark.days > 0)]

/-- Witness for C2 at the concrete still-subscribed user and 30-day order
`B1`. -/
theorem C2_benefit_arithmetic_witness :
    (notify env0 db5 "B1" "T9").1.users =
      (updateUser db5 (creditBenefit env0 remarkVip userVip).1).users ∧
    (remarkVip.days > 0 → userVip.expiredTime ≥ env0.now →
      (creditBenefit env0 remarkVip userVip).1.expiredTime =
          env0.addDays userVip.expiredTime remarkVip.days ∧
        (creditBenefit env0 remarkVip userVip).1.power = userVip.power ∧
        (creditBenefit env0 remarkVip userVip).2.1 = 0 ∧
        (creditBenefit env0 remarkVip userVip).1.vip = true) ∧
    (remarkVip.days > 0 → ¬ userVip.expiredTime ≥ env0.now →
      (creditBenefit env0 remarkVip userVip).1.expiredTime =
          env0.addDays env0.now remarkVip.days ∧
        (creditBenefit env0 remarkVip userVip).1.power =
          userVip.power + env0.vipMonthPower ∧
        (creditBenefit env0 remarkVip userVip).1.vip = true) ∧
    (remarkVip.days ≤ 0 →
      (creditBenefit env0 remarkVip userVip).1.power =
        userVip.power + remarkVip.power) :=
  C2_benefit_arithmetic env0 db5 "B1" "T9" orderVip userVip remarkVip
    (by decide) (by decide) (by decide) (by decide) (by decide) (by decide)

/-- C3: settling an order that is already `PaidSuccess` returns success
immediately with the database untouched, and the provider endpoint
acknowledges with the literal `"success"`. -/
theorem C3_already_settled (env : Env) (db : DB) (orderNo tradeNo tn : String)
    (order : Order)
    (hord : findOrder db orderNo = some order)
    (hp : order.status = OrderStatus.paidSuccess) :
    notify env db orderNo tradeNo = (db, true) ∧
    huPiPayNotify env db true orderNo tn true = (db, NotifyResp.text "success") := by
  have h1 : ∀ t2, notify env db orderNo t2 = (db, true) := by
    intro t2
    unfold notify notifyLocked
    simp [hord, hp]
  refine ⟨h1 tradeNo, ?_⟩
  unfold huPiPayNotify
  simp [h1 tn]

/-- Witness for C3 at the concrete already-paid order `P1`. -/
theorem C3_already_settled_witness :
    notify env0 dbPaid "P1" "TX" = (dbPaid, true) ∧
    huPiPayNotify env0 dbPaid true "P1" "TY" true = (dbPaid, NotifyResp.text "success") :=
  C3_already_settled env0 dbPaid "P1" "TX" "TY" orderPaid (by decide) (by decide)

/-- C4: the string `DoPay` verifies (`orderNo-t-signKey`) differs from the
string `PayQrcode` signs (`orderNo-payWay-t-signKey`), so with the digest
modelled injectively, the `sign` parameter carried by every generated pay
URL is rejected by `DoPay` as a signature error even when the timestamp is
fresh — while `DoPay`'s own recomputed signature passes the gate (reaching
the order lookup), showing the two sign-string formats are the sole
mismatch.  The round-trip claimed by the spec never succeeds. -/
theorem C4_sign_mismatch (env : Env) (pe : ProviderEnv) (db : DB)
    (orderNo payWay : String) (t : Int)
    (hpw : payWay ≠ "")
    (hord : findOrder db orderNo = none)
    (hfresh : env.now - t ≤ env.orderPayTimeout)
    (hno : orderNo ≠ "") :
    doPay env pe db
        { orderNo := orderNo, t := t, sign := payQrcodeSign orderNo payWay t env.signKey } =
      (db, DoPayResult.errorMsg "订单签名错误！") ∧
    doPay env pe db
        { orderNo := orderNo, t := t, sign := sha256 (doPaySignStr orderNo t env.signKey) } =
      (db, DoPayResult.errorMsg "Order not found") := by
  constructor
  · have h1 : payWay.length ≠ 0 := by
      intro h0
      apply hpw
      cases payWay with
      | mk d =>
        have hd : d = [] := List.length_eq_zero.mp h0
        rw [hd]
    have hlen : (sha256 (doPaySignStr orderNo t env.signKey)).length ≠
        (payQrcodeSign orderNo payWay t env.signKey).length := by
      unfold payQrcodeSign payQrcodeSignStr doPaySignStr sha256
      simp only [String.length_append]
      omega
    have hne : sha256 (doPaySignStr orderNo t env.signKey) ≠
        payQrcodeSign orderNo payWay t env.signKey :=
      fun hEq => hlen (congrArg String.length hEq)
    unfold doPay
    simp [hne]
  · have h2 : ¬ (env.now - t > env.orderPayTimeout) := not_lt.mpr hfresh
    unfold doPay
    simp [h2, hno, hord]

/-- Witness for C4: a concrete generated signature is rejected while the
matching recomputation passes. -/
theorem C4_sign_mismatch_witness :
    doPay env0 peFail dbEmpty
        { orderNo := "10001", t := 1700000000,
          sign := payQrcodeSign "10001" "wechat" 1700000000 env0.signKey } =
      (dbEmpty, DoPayResult.errorMsg "订单签名错误！") ∧
    doPay env0 peFail dbEmpty
        { orderNo := "10001", t := 1700000000,
          sign := sha256 (doPaySignStr "10001" 1700000000 env0.signKey) } =
      (dbEmpty, DoPayResult.errorMsg "Order not found") :=
  C4_sign_mismatch env0 peFail dbEmpty "10001" "wechat" 1700000000
    (by decide) (by decide) (by decide) (by decide)

/-- C5 counterexample: settling the subscription-extension order `B1`
succeeds — the order flips to `PaidSuccess` — yet no `PowerLog` row is
inserted, refuting the claim that every successful settlement writes an
audit entry including the extension branch. -/
theorem C5_counterexample :
    (notify env0 db5 "B1" "T9").2 = true ∧
    (findOrder (notify env0 db5 "B1" "T9").1 "B1").map Order.status =
      some OrderStatus.paidSuccess ∧
    (notify env0 db5 "B1" "T9").1.powerLogs = [] := by
  decide

/-- C5 (amended): a successful settlement writes a power-log row exactly
when the credited delta is positive, and the row records the user, delta,
post-mutation balance, provider, and a reason text carrying the order
amount and order number (`settleLog`); in the subscription-extension
branch the delta is zero, so no row is written. -/
theorem C5_powerlog (env : Env) (db : DB) (orderNo tradeNo : String)
    (order : Order) (user : User) (remark : OrderRemark)
    (hord : findOrder db orderNo = some order)
    (hnp : order.status ≠ OrderStatus.paidSuccess)
    (husr : findUser db order.userId = some user)
    (hrem : order.remark = some remark)
    (f1 : env.failUserUpdate = false)
    (f2 : env.failOrderUpdate = false)
    (f4 : env.failPowerLogInsert = false) :
    (notify env db orderNo tradeNo).1.powerLogs =
      db.powerLogs ++
        (if (creditBenefit env remark user).2.1 > 0 then
          [settleLog (creditBenefit env remark user) order]
         else []) ∧
    (remark.days > 0 → user.expiredTime ≥ env.now →
      (notify env db orderNo tradeNo).1.powerLogs = db.powerLogs) := by
  have hmain : (notify env db orderNo tradeNo).1.powerLogs =
      db.powerLogs ++
        (if (creditBenefit env remark user).2.1 > 0 then
          [settleLog (creditBenefit env remark user) order]
         else []) := by
    rw [notify_success env db orderNo tradeNo order user remark hord hnp husr hrem f1 f2]
    rw [settleDB_powerLogs]
    by_cases h : (creditBenefit env remark user).2.1 > 0 <;> simp [h, f4]
  refine ⟨hmain, ?_⟩
  intro hd he
  rw [hmain]
  have hz : (creditBenefit env remark user).2.1 = 0 := by
    unfold creditBenefit
    rw [if_pos hd, if_pos he]
  simp [hz]

/-- Witness for C5 (amended) at the concrete top-up order `A1` (positive
delta: one log row appended). -/
theorem C5_powerlog_witness :
    (notify env0 db0 "A1" "T1").1.powerLogs =
      db0.powerLogs ++
        (if (creditBenefit env0 remarkTopup userU).2.1 > 0 then
          [settleLog (creditBenefit env0 remarkTopup userU) orderA]
         else []) ∧
    (remarkTopup.days > 0 → userU.expiredTime ≥ env0.now →
      (notify env0 db0 "A1" "T1").1.powerLogs = db0.powerLogs) :=
  C5_powerlog env0 db0 "A1" "T1" orderA userU remarkTopup
    (by decide) (by decide) (by decide) (by decide) (by decide) (by decide) (by decide)

/-- C6 counterexample: a callback whose order number matches no stored
order is answered with the literal `"fail"` — the token providers treat as
retry-later — not a terminal, non-retried outcome. -/
theorem C6_counterexample :
    huPiPayNotify env0 dbEmpty true "NOPE" "T1" true = (dbEmpty, NotifyResp.text "fail") ∧
    NotifyResp.text "fail" ≠ NotifyResp.text "success" := by
  decide

/-- C6 (amended): when the order number matches no stored order, `notify`
reports an error without mutating anything, and every notification
endpoint acknowledges with the failure token `"fail"` — the same
retry-inducing token used for transient settlement failures. -/
theorem C6_order_not_found (env : Env) (db : DB) (orderNo tn : String)
    (h : findOrder db orderNo = none) :
    notify env db orderNo tn = (db, false) ∧
    huPiPayNotify env db true orderNo tn true = (db, NotifyResp.text "fail") ∧
    alipayNotify env db true true orderNo tn = (db, NotifyResp.text "fail") ∧
    payJsNotify env db true orderNo "1" tn = (db, NotifyResp.text "fail") ∧
    wechatPayNotify env db true true orderNo tn = (db, NotifyResp.text "fail") := by
  have h1 : notify env db orderNo tn = (db, false) := by
    unfold notify
    simp [h]
  refine ⟨h1, ?_, ?_, ?_, ?_⟩ <;>
    simp [huPiPayNotify, alipayNotify, payJsNotify, wechatPayNotify, h1]

/-- Witness for C6 (amended) at the empty database. -/
theorem C6_order_not_found_witness :
    notify env0 dbEmpty "X9" "T7" = (dbEmpty, false) ∧
    huPiPayNotify env0 dbEmpty true "X9" "T7" true = (dbEmpty, NotifyResp.text "fail") ∧
    alipayNotify env0 dbEmpty true true "X9" "T7" = (dbEmpty, NotifyResp.text "fail") ∧
    payJsNotify env0 dbEmpty true "X9" "1" "T7" = (dbEmpty, NotifyResp.text "fail") ∧
    wechatPayNotify env0 dbEmpty true true "X9" "T7" = (dbEmpty, NotifyResp.text "fail") :=
  C6_order_not_found env0 dbEmpty "X9" "T7" (by decide)

/-- C7 counterexample: in `Mobile`, the provider is called before the
order row is created, so when the provider call fails the error is
surfaced but no order row exists at all — refuting the claim that the
order row nevertheless exists in status `NotPaid`. -/
theorem C7_counterexample :
    mobile env0 peFail geOk dbProd { payWay := "hupi", payType := "wechat", productId := 7 } =
      (dbProd, PayGenResult.errorMsg "error with generating Pay Hupi URL: down") ∧
    dbProd.orders = [] := by
  decide

/-- C7 (amended): `Mobile` calls the provider before creating the order,
so a provider failure surfaces the error with the database untouched and
no order row created; `PayQrcode` creates the order before the QR steps
(it makes no provider call), so a later failure surfaces an error while
the created `NotPaid` row persists. -/
theorem C7_creation_order (env : Env) (pe : ProviderEnv) (ge : GenEnv) (db : DB)
    (req1 req2 : PayGenReq) (product : Product) (user : User) (orderNo e : String)
    (hbind : ge.bindOk = true)
    (hsf : ge.snowflakeOrderNo = Except.ok orderNo)
    (huser : ge.loginUser = some user)
    (hp1 : findProduct db req1.productId = some product)
    (hw1 : req1.payWay = "hupi")
    (hfail : pe.hupiPayUrl = Except.error e)
    (hp2 : findProduct db req2.productId = some product)
    (hw2 : req2.payWay = "wechat")
    (hcf : ge.createOrderFail = false)
    (hfs : ge.fsOpenOk = true)
    (hpu : ge.parseURLOk = true)
    (hqr : ge.qrcodeOk = false) :
    mobile env pe ge db req1 =
      (db, PayGenResult.errorMsg ("error with generating Pay Hupi URL: " ++ e)) ∧
    (payQrcode env ge db req2).2 = PayGenResult.errorMsg "qrcode error" ∧
    (payQrcode env ge db req2).1.orders =
      db.orders ++ [buildOrder user product orderNo "wechat" req2.payType] ∧
    (buildOrder user product orderNo "wechat" req2.payType).status = OrderStatus.notPaid := by
  refine ⟨?_, ?_, ?_, rfl⟩
  · unfold mobile
    simp [hbind, hp1, hsf, huser, hw1, hfail]
  · unfold payQrcode
    simp [hbind, hp2, hsf, huser, hw2, hcf, hfs, hpu, hqr]
  · unfold payQrcode
    simp [hbind, hp2, hsf, huser, hw2, hcf, hfs, hpu, hqr, createOrder]

/-- Witness for C7 (amended) at the concrete product 7. -/
theorem C7_creation_order_witness :
    mobile env0 peFail geQrFail dbProd { payWay := "hupi", payType := "wechat", productId := 7 } =
      (dbProd, PayGenResult.errorMsg ("error with generating Pay Hupi URL: " ++ "down")) ∧
    (payQrcode env0 geQrFail dbProd { payWay := "wechat", payType := "wechat", productId := 7 }).2 =
      PayGenResult.errorMsg "qrcode error" ∧
    (payQrcode env0 geQrFail dbProd { payWay := "wechat", payType := "wechat", productId := 7 }).1.orders =
      dbProd.orders ++ [buildOrder userU prod7 "N1" "wechat" "wechat"] ∧
    (buildOrder userU prod7 "N1" "wechat" "wechat").status = OrderStatus.notPaid :=
  C7_creation_order env0 peFail geQrFail dbProd
    { payWay := "hupi", payType := "wechat", productId := 7 }
    { payWay := "wechat", payType := "wechat", productId := 7 }
    prod7 userU "N1" "down"
    (by decide) rfl (by decide) (by decide) (by decide) rfl
    (by decide) (by decide) (by decide) (by decide) (by decide) (by decide)

/-- C8: across `DoPay` and `notify`, every order row moves only forward in
the status order NotPaid before Scanned before PaidSuccess, and a row that
is already `PaidSuccess` keeps that status — provided order numbers are
unique in the table. -/
theorem C8_status_monotonic (env : Env) (pe : ProviderEnv) (db : DB) (req : DoPayReq)
    (orderNo tradeNo : String)
    (hU : ∀ x ∈ db.orders, ∀ y ∈ db.orders, x.orderNo = y.orderNo → x = y) :
    List.Forall₂ statusMono db.orders (doPay env pe db req).1.orders ∧
    List.Forall₂ statusMono db.orders (notify env db orderNo tradeNo).1.orders := by
  constructor
  · rcases doPay_orders env pe db req with h | ⟨order, heq, hnp, h⟩
    · rw [h]
      exact forall2_statusMono_refl _
    · rw [h]
      have hr : statusRank order.status ≤
          statusRank ({ order with status := OrderStatus.scanned }).status := by
        cases ho : order.status
        · simp [statusRank]
        · simp [statusRank]
        · exact absurd ho hnp
      exact forall2_statusMono_update hU (findOrder_mem heq) hnp hr
  · rcases notify_orders env db orderNo tradeNo with h | ⟨order, heq, hnp, h⟩
    · rw [h]
      exact forall2_statusMono_refl _
    · rw [h]
      have hr : statusRank order.status ≤
          statusRank (settledOrder env order tradeNo).status := by
        cases ho : order.status <;> simp [statusRank, settledOrder]
      exact forall2_statusMono_update hU (findOrder_mem heq) hnp hr

/-- Witness for C8 at the concrete single-order database `db0`. -/
theorem C8_status_monotonic_witness :
    List.Forall₂ statusMono db0.orders
      (doPay env0 peFail db0
        { orderNo := "A1", t := 1700000000,
          sign := sha256 (doPaySignStr "A1" 1700000000 env0.signKey) }).1.orders ∧
    List.Forall₂ statusMono db0.orders (notify env0 db0 "A1" "T1").1.orders :=
  C8_status_monotonic env0 peFail db0
    { orderNo := "A1", t := 1700000000,
      sign := sha256 (doPaySignStr "A1" 1700000000 env0.signKey) }
    "A1" "T1" (by decide)

/-- C9 counterexample: `PayJsNotify` on a failed-payment callback
(`return_code` ≠ "1") returns without writing any acknowledgment body —
neither `"success"` nor `"fail"`. -/
theorem C9_counterexample :
    payJsNotify env0 dbEmpty true "A1" "0" "PJ" = (dbEmpty, NotifyResp.empty) ∧
    NotifyResp.empty ≠ NotifyResp.text "success" ∧
    NotifyResp.empty ≠ NotifyResp.text "fail" := by
  decide

/-- C9 (amended): `HuPiPayNotify` and `AlipayNotify` answer exactly
`"success"` or `"fail"` on every path; `PayJsNotify` additionally may
answer nothing (exactly when the form parsed and `return_code` ≠ "1");
`WechatPayNotify` additionally may panic on the nil-`err` dereference
while building its failure body, writing no response (exactly when the
form parsed and trade verification failed). -/
theorem C9_ack_tokens (env : Env) (db : DB) (parseOk checkOk verifyOk : Bool)
    (a b returnCode : String) :
    ((huPiPayNotify env db parseOk a b checkOk).2 = NotifyResp.text "success" ∨
      (huPiPayNotify env db parseOk a b checkOk).2 = NotifyResp.text "fail") ∧
    ((alipayNotify env db parseOk verifyOk a b).2 = NotifyResp.text "success" ∨
      (alipayNotify env db parseOk verifyOk a b).2 = NotifyResp.text "fail") ∧
    ((payJsNotify env db parseOk a returnCode b).2 = NotifyResp.text "success" ∨
      (payJsNotify env db parseOk a returnCode b).2 = NotifyResp.text "fail" ∨
      ((payJsNotify env db parseOk a returnCode b).2 = NotifyResp.empty ∧
        parseOk = true ∧ returnCode ≠ "1")) ∧
    ((wechatPayNotify env db parseOk verifyOk a b).2 = NotifyResp.text "success" ∨
      (wechatPayNotify env db parseOk verifyOk a b).2 = NotifyResp.text "fail" ∨
      ((wechatPayNotify env db parseOk verifyOk a b).2 = NotifyResp.panicked ∧
        parseOk = true ∧ verifyOk = false)) := by
  unfold huPiPayNotify alipayNotify payJsNotify wechatPayNotify
  cases parseOk <;> cases checkOk <;> cases verifyOk <;>
    by_cases hrc : returnCode = "1" <;>
      cases hA : (notify env db a b).2 <;>
        simp [hrc, hA]

/-- C10: once the user update and the order update have succeeded,
`notify` returns success even when the sales increment and the power-log
insert fail: those failures are ignored (the skipped writes leave their
tables untouched), the endpoint still acknowledges `"success"`, and the
order is settled. -/
theorem C10_ignored_tail_failures (env : Env) (db : DB) (orderNo tradeNo : String)
    (order : Order) (user : User) (remark : OrderRemark)
    (hord : findOrder db orderNo = some order)
    (hnp : order.status ≠ OrderStatus.paidSuccess)
    (husr : findUser db order.userId = some user)
    (hrem : order.remark = some remark)
    (f1 : env.failUserUpdate = false)
    (f2 : env.failOrderUpdate = false) :
    (notify { env with failSalesUpdate := true, failPowerLogInsert := true }
        db orderNo tradeNo).2 = true ∧
    (notify { env with failPowerLogInsert := true } db orderNo tradeNo).1.powerLogs =
      db.powerLogs ∧
    (notify { env with failSalesUpdate := true } db orderNo tradeNo).1.products =
      db.products ∧
    (huPiPayNotify { env with failSalesUpdate := true, failPowerLogInsert := true }
        db true orderNo tradeNo true).2 = NotifyResp.text "success" ∧
    findOrder (notify env db orderNo tradeNo).1 orderNo =
      some (settledOrder env order tradeNo) := by
  have hs1 := notify_success { env with failSalesUpdate := true, failPowerLogInsert := true }
    db orderNo tradeNo order user remark hord hnp husr hrem f1 f2
  have hs2 := notify_success { env with failPowerLogInsert := true }
    db orderNo tradeNo order user remark hord hnp husr hrem f1 f2
  have hs3 := notify_success { env with failSalesUpdate := true }
    db orderNo tradeNo order user remark hord hnp husr hrem f1 f2
  have hs4 := notify_success env db orderNo tradeNo order user remark hord hnp husr hrem f1 f2
  refine ⟨by rw [hs1], ?_, ?_, ?_, ?_⟩
  · rw [hs2, settleDB_powerLogs]
    simp
  · rw [hs3]
    exact settleDB_products_failed _ db order tradeNo _ rfl
  · unfold huPiPayNotify
    simp [hs1]
  · rw [hs4]
    exact findOrder_settleDB env db orderNo tradeNo order (creditBenefit env remark user) hord

/-- Witness for C10 at the concrete top-up order `A1`. -/
theorem C10_ignored_tail_failures_witness :
    (notify { env0 with failSalesUpdate := true, failPowerLogInsert := true }
        db0 "A1" "T1").2 = true ∧
    (notify { env0 with failPowerLogInsert := true } db0 "A1" "T1").1.powerLogs =
      db0.powerLogs ∧
    (notify { env0 with failSalesUpdate := true } db0 "A1" "T1").1.products =
      db0.products ∧
    (huPiPayNotify { env0 with failSalesUpdate := true, failPowerLogInsert := true }
        db0 true "A1" "T1" true).2 = NotifyResp.text "success" ∧
    findOrder (notify env0 db0 "A1" "T1").1 "A1" =
      some (settledOrder env0 orderA "T1") :=
  C10_ignored_tail_failures env0 db0 "A1" "T1" orderA userU remarkTopup
    (by decide) (by decide) (by decide) (by decide) (by decide) (by decide)

end Payment
